import Mathlib

/-!
Verification of `tools/make_src_dist.py` (devilutionX source-distribution
packaging script) against its natural-language specification.

The script is shallowly embedded: its module-level constants, the `Version`
and `Paths` classes, the dependency-selection logic of `main`, the
`ignore_dep_src` filter with its two regular expressions, the
`.gitkeep`-skipping repo-file copy loop, the `cmake`/`git` subprocess
wrappers and the `write_dist_cmakelists` output are all translated into
executable Lean definitions.  Python string primitives (`in`, `endswith`,
`upper`, `rstrip`, `sorted`, regex search for these specific patterns) are
modelled at the level of `List Char`, matching Python's code-point
semantics.
-/

namespace MakeSrcDist

/-! ## Python string primitives -/

/-- Python code-point-wise lexicographic `<=` on strings (the order used by
`sorted`), as a computable Bool on char lists. -/
def charsLe : List Char → List Char → Bool
  | [], _ => true
  | _ :: _, [] => false
  | a :: as, b :: bs => if a = b then charsLe as bs else decide (a.toNat < b.toNat)

/-- Python string `<=` (code-point lexicographic). -/
def pyStrLe (a b : String) : Bool := charsLe a.data b.data

/-- Insertion step for `pySorted`. -/
def insertSorted (x : String) : List String → List String
  | [] => [x]
  | y :: ys => if pyStrLe x y then x :: y :: ys else y :: insertSorted x ys

/-- Python `sorted` on a list of strings (insertion sort by `pyStrLe`; on
lists of distinct strings this agrees with any correct sort). -/
def pySorted (l : List String) : List String := l.foldr insertSorted []

/-- Bool check that a list of strings is sorted by `pyStrLe`. -/
def isSortedLe : List String → Bool
  | [] => true
  | [_] => true
  | a :: b :: t => pyStrLe a b && isSortedLe (b :: t)

/-- Python `str.upper` (the dependency names are ASCII). -/
def pyUpper (s : String) : String := ⟨s.data.map Char.toUpper⟩

/-- Python `c in s` for a single character. -/
def pyContainsChar (s : String) (c : Char) : Bool := s.data.contains c

/-- Substring test on char lists: Python `needle in hay`. -/
def containsSub (needle : List Char) : List Char → Bool
  | [] => needle.isEmpty
  | c :: rest => needle.isPrefixOf (c :: rest) || containsSub needle rest

/-- Python `needle in hay` on strings. -/
def pyInStr (needle hay : String) : Bool := containsSub needle.data hay.data

/-- Python `s.endswith(t)`. -/
def pyEndsWith (s t : String) : Bool := List.isSuffixOf t.data s.data

/-- Python `str.isspace` characters relevant to `rstrip()`. -/
def pyIsSpace (c : Char) : Bool :=
  c == ' ' || c == '\t' || c == '\n' || c == '\x0d' || c == '\x0b' || c == '\x0c'

/-- Python `s.rstrip()`: drop trailing whitespace. -/
def pyRstrip (s : String) : String := ⟨(s.data.reverse.dropWhile pyIsSpace).reverse⟩

/-! ## Module-level dependency catalog (`_DEPS`, `_ALWAYS_VENDORED_DEPS`,
`_DEPS_NOT_VENDORED_BY_DEFAULT`) -/

/-- Dependencies packaged in every mode. -/
def _DEPS : List String :=
  ["asio", "libmpq", "libsmackerdec",
   "libzt", "sdl_audiolib", "simpleini", "unordered_dense"]

/-- Dependencies vendored regardless of mode (no system-copy-off flag). -/
def _ALWAYS_VENDORED_DEPS : List String := ["asio", "libmpq", "libsmackerdec", "libzt"]

/-- Dependencies only vendored under `--fully_vendored`. -/
def _DEPS_NOT_VENDORED_BY_DEFAULT : List String :=
  ["googletest", "benchmark", "sdl2", "sdl_image",
   "libpng", "libfmt", "bzip2", "libsodium"]

/-! ## `Version` and `Paths` -/

/-- The `Version` class: `prefix` (renamed `pfx`: Lean keyword), `commit_sha`
and the computed display string `str`. -/
structure Version where
  pfx : String
  commit_sha : String
  str : String
deriving DecidableEq, Repr

/-- `Version.__init__`: `self.str = f'{prefix}-{commit_sha}' if '-' in prefix
else prefix`. -/
def Version.make (pfx commit_sha : String) : Version :=
  { pfx := pfx, commit_sha := commit_sha,
    str := if pyContainsChar pfx '-' then pfx ++ "-" ++ commit_sha else pfx }

/-- `Paths.__init__`: `archive_top_level_dir_name` is `'devilutionx-src'`,
plus `'-full'` when fully vendored, plus `f'-{version}'`. -/
def archive_top_level_dir_name (version : Version) (fully_vendored : Bool) : String :=
  let name := "devilutionx-src"
  let name := if fully_vendored then name ++ "-full" else name
  name ++ "-" ++ version.str

/-! ## Dependency selection in `main` -/

/-- Dependency names whose `-DDEVILUTIONX_SYSTEM_<DEP>=OFF` flag `main`
appends to `configure_args`, in emission order:
`sorted(set(_DEPS) - set(_ALWAYS_VENDORED_DEPS))` first, then (only with
`--fully_vendored`) `_DEPS_NOT_VENDORED_BY_DEFAULT` in declaration order. -/
def system_off_dep_names (fully_vendored : Bool) : List String :=
  pySorted ((_DEPS.dedup).filter (fun d => !(_ALWAYS_VENDORED_DEPS.contains d)))
    ++ (if fully_vendored then _DEPS_NOT_VENDORED_BY_DEFAULT else [])

/-- The emitted system-copy-disabling flags, in emission order. -/
def system_off_flags (fully_vendored : Bool) : List String :=
  (system_off_dep_names fully_vendored).map
    (fun dep => "-DDEVILUTIONX_SYSTEM_" ++ pyUpper dep ++ "=OFF")

/-- The dependencies physically copied into `dist/` by `main`:
`_DEPS + (_DEPS_NOT_VENDORED_BY_DEFAULT if args.fully_vendored else [])`. -/
def deps_to_copy (fully_vendored : Bool) : List String :=
  _DEPS ++ (if fully_vendored then _DEPS_NOT_VENDORED_BY_DEFAULT else [])

/-! ## External processes (`cmake`, `git`, `get_version`)

`subprocess.run` is modelled by its observable outcome: either the
executable is missing (Python raises `FileNotFoundError`) or the process
completes with some exit status and stdout.  Neither wrapper passes
`check=True`, so a completed process never raises, whatever its exit
status; a missing executable raises, which aborts the script. -/

/-- Outcome of one `subprocess.run` invocation. -/
inductive ProcOutcome where
  | notFound
  | completed (exitCode : Nat) (stdout : String)
deriving DecidableEq, Repr

/-- An exception that aborts the script. -/
inductive PipelineError where
  | fileNotFound (exe : String)
deriving DecidableEq, Repr

/-- `cmake(*cmd_args)`: `subprocess.run(['cmake', ...], stdout=DEVNULL)`
with no `check=True` — a non-zero exit status is ignored. -/
def cmake (outcome : ProcOutcome) : Except PipelineError Unit :=
  match outcome with
  | .notFound => .error (.fileNotFound "cmake")
  | .completed _ _ => .ok ()

/-- `git(*cmd_args)`: `subprocess.run(['git', ...], capture_output=True).stdout`
with no `check=True` — `.stdout` is returned whatever the exit status. -/
def git (outcome : ProcOutcome) : Except PipelineError String :=
  match outcome with
  | .notFound => .error (.fileNotFound "git")
  | .completed _ out => .ok out

/-- `get_version()`: reads `VERSION` (content injected here), rstrips it, and
combines it with the rstripped output of `git rev-parse --short HEAD`. -/
def get_version (version_file_content : String) (rev_parse : ProcOutcome) :
    Except PipelineError Version :=
  match git rev_parse with
  | .error e => .error e
  | .ok out => .ok (Version.make (pyRstrip version_file_content) (pyRstrip out))

/-- The external-process portion of `main`, in program order: the cmake
configure step, the cmake build step, then `get_version` (which performs the
git revision lookup).  A raised exception propagates; later steps run only
if the earlier ones did not raise. -/
def main_external_steps (configure_outcome build_outcome rev_parse : ProcOutcome)
    (version_file_content : String) : Except PipelineError Version := do
  let _ ← cmake configure_outcome
  let _ ← cmake build_outcome
  get_version version_file_content rev_parse

/-! ## `ignore_dep_src` and its regular expressions

`re.search` for the two module-level patterns is embedded as an explicit
scan over the string: at each position the scanner knows whether the
position is preceded by `/` or is the string start (the `(/|^)` group), and
`$` matches at the end of the string or just before a final newline (Python
semantics without `re.MULTILINE`). -/

/-- The words of the `_IGNORE_DEP_DIR_RE` alternation
`(tests?|other|vcx?proj|examples?|doxygen|docs?|asio-src/asio/src)`. -/
def dirAltWords : List (List Char) :=
  ["test".data, "tests".data, "other".data, "vcproj".data, "vcxproj".data,
   "example".data, "examples".data, "doxygen".data, "doc".data, "docs".data,
   "asio-src/asio/src".data]

/-- The `(/|$)` closing group: next char is `/`, or end of input, or a final
newline (matched by `$`). -/
def slashEndBoundary : List Char → Bool
  | [] => true
  | ['\n'] => true
  | '/' :: _ => true
  | _ => false

/-- The `$` anchor alone: end of input or just before a final newline. -/
def dollarEndBoundary : List Char → Bool
  | [] => true
  | ['\n'] => true
  | _ => false

/-- Scan for `_IGNORE_DEP_DIR_RE` = `(/|^)\.|(/|^)(...)(/|$)`:
`atBoundary` records whether the current position is the string start or
preceded by `/` (the consumed `(/|^)` group). -/
def dirSearchFrom (atBoundary : Bool) : List Char → Bool
  | [] => false
  | c :: rest =>
    (atBoundary &&
      (c == '.'
        || dirAltWords.any (fun w =>
            w.isPrefixOf (c :: rest) && slashEndBoundary ((c :: rest).drop w.length))))
    || dirSearchFrom (c == '/') rest

/-- Truthiness of `_IGNORE_DEP_DIR_RE.search(s)`. -/
def ignoreDepDirMatches (s : String) : Bool := dirSearchFrom true s.data

/-- The unanchored words of `_IGNORE_DEP_FILE_RE`:
`Makefile|vcx?proj|example|doxygen|docs?`. -/
def fileAltWords : List (List Char) :=
  ["Makefile".data, "vcproj".data, "vcxproj".data,
   "example".data, "doxygen".data, "doc".data, "docs".data]

/-- The anchored extensions of `_IGNORE_DEP_FILE_RE`:
`\.(doxy|cmd|png|html|ico|icns)$`. -/
def fileExtWords : List (List Char) :=
  [".doxy".data, ".cmd".data, ".png".data, ".html".data, ".ico".data, ".icns".data]

/-- Scan for `_IGNORE_DEP_FILE_RE` =
`(^\.|Makefile|vcx?proj|example|doxygen|docs?|\.(doxy|cmd|png|html|ico|icns)$)`:
`atStart` is true only at position 0 (the `^` anchor). -/
def fileSearchFrom (atStart : Bool) : List Char → Bool
  | [] => false
  | c :: rest =>
    ((atStart && c == '.')
      || fileAltWords.any (fun w => w.isPrefixOf (c :: rest))
      || fileExtWords.any (fun w =>
          w.isPrefixOf (c :: rest) && dollarEndBoundary ((c :: rest).drop w.length)))
    || fileSearchFrom false rest

/-- Truthiness of `_IGNORE_DEP_FILE_RE.search(s)`. -/
def ignoreDepFileMatches (s : String) : Bool := fileSearchFrom true s.data

/-- `ignore_dep_src(src, names)`: the `shutil.copytree` ignore callback.
Returns the entries of `names` that are NOT copied.  For any directory whose
path contains `sdl_audiolib`, it returns
`[name for name in names if src.endswith('/sdl_audiolib-src/3rdparty/fmt')]`
(all of `names` when `src` ends with that sub-path, nothing otherwise);
elsewhere a directory matching the directory pattern loses all entries, and
otherwise each entry matching the file or directory pattern is dropped. -/
def ignore_dep_src (src : String) (names : List String) : List String :=
  if pyInStr "sdl_audiolib" src then
    names.filter (fun _ => pyEndsWith src "/sdl_audiolib-src/3rdparty/fmt")
  else if ignoreDepDirMatches src then names
  else names.filter (fun name => ignoreDepFileMatches name || ignoreDepDirMatches name)

/-! ## `write_dist_cmakelists` -/

/-- The fixed `b'''...'''` block written between the commit hash line and the
per-dependency lines. -/
def distCMakeListsFixedBlock : String :=
  "\n# Pre-generated `devilutionx.mpq` is provided so that distributions do not have to depend on smpq.\n"
  ++ "set(DEVILUTIONX_MPQ \"${CMAKE_CURRENT_SOURCE_DIR}/devilutionx.mpq\" PARENT_SCOPE)\n"
  ++ "\n"
  ++ "# This would ensure that CMake does not attempt to connect to network.\n"
  ++ "# We do not set this to allow for builds for Windows and Android, which do fetch some\n"
  ++ "# dependencies even with this source distribution.\n"
  ++ "# set(FETCHCONTENT_FULLY_DISCONNECTED ON PARENT_SCOPE)\n"
  ++ "\n"
  ++ "# Set the path to each dependency that must be vendored:\n"

/-- One `set(FETCHCONTENT_SOURCE_DIR_<DEP> ...)` line. -/
def fetchcontentSourceDirLine (dep : String) : String :=
  "set(FETCHCONTENT_SOURCE_DIR_" ++ pyUpper dep
    ++ " \"${CMAKE_CURRENT_SOURCE_DIR}/" ++ dep ++ "-src\" CACHE STRING \"\")\n"

/-- The conditional `if(NOT DEFINED DEVILUTIONX_SYSTEM_<DEP>) ... endif()`
block written per not-vendored-by-default dependency in fully-vendored
mode. -/
def systemOffConditional (dep : String) : String :=
  "if(NOT DEFINED DEVILUTIONX_SYSTEM_" ++ pyUpper dep ++ ")\n"
  ++ "  set(DEVILUTIONX_SYSTEM_" ++ pyUpper dep ++ " OFF CACHE BOOL \"\")\n"
  ++ "endif()\n"

/-- The byte content written by `write_dist_cmakelists` (the function's only
output; it reads nothing but its arguments and the module constants). -/
def write_dist_cmakelists_content (version : Version) (fully_vendored : Bool) : String :=
  let s := "# Generated by tools/make_src_dist.py\n"
  let s := if version.commit_sha ≠ "" then
      s ++ "set(GIT_COMMIT_HASH \"" ++ version.commit_sha ++ "\" PARENT_SCOPE)\n"
    else s
  let s := s ++ distCMakeListsFixedBlock
  let s := s ++ String.join (_DEPS.map fetchcontentSourceDirLine)
  if fully_vendored then
    s ++ "\n# These dependencies are not usually vendored but this distribution includes them\n"
      ++ "set(FETCHCONTENT_SOURCE_DIR_DISCORDSRC \"${CMAKE_CURRENT_SOURCE_DIR}/discordsrc-src\" CACHE STRING \"\")\n"
      ++ String.join (_DEPS_NOT_VENDORED_BY_DEFAULT.map
          (fun dep => fetchcontentSourceDirLine dep ++ systemOffConditional dep))
  else s

/-! ## The repo-file copy loop of `main` -/

/-- `pathlib` parent of a relative path: everything before the last `/`, or
`.` when there is no `/`. -/
def parentDir (p : String) : String :=
  match p.data.reverse.dropWhile (fun c => !(c == '/')) with
  | [] => "."
  | _ :: t => ⟨t.reverse⟩

/-- Scan for `(^|/)\.gitkeep$` (the skip test of the copy loop). -/
def gitkeepSearchFrom (atBoundary : Bool) : List Char → Bool
  | [] => false
  | c :: rest =>
    (atBoundary && ".gitkeep".data.isPrefixOf (c :: rest)
      && dollarEndBoundary ((c :: rest).drop (".gitkeep".data.length)))
    || gitkeepSearchFrom (c == '/') rest

/-- Truthiness of `re.search(r'(^|/)\.gitkeep$', src)`. -/
def gitkeepMatches (src : String) : Bool := gitkeepSearchFrom true src.data

/-- Filesystem effects of the copy loop on the staging tree: directories
created by `mkdir(parents=True, exist_ok=True)` and files copied by
`shutil.copy2`, as staging-relative paths. -/
structure CollectState where
  created_dirs : List String
  copied_files : List String
deriving DecidableEq, Repr

/-- One iteration of the copy loop: the destination's parent directory is
created first, then the `.gitkeep` test decides whether the file is
copied. -/
def copy_repo_file_step (st : CollectState) (src : String) : CollectState :=
  let st' : CollectState := { st with created_dirs := parentDir src :: st.created_dirs }
  if gitkeepMatches src then st'
  else { st' with copied_files := src :: st'.copied_files }

/-- The whole copy loop over the paths enumerated by `git ls-files -z`. -/
def copy_repo_files (srcs : List String) : CollectState :=
  srcs.foldl copy_repo_file_step { created_dirs := [], copied_files := [] }

end MakeSrcDist

namespace MakeSrcDist

/-! ## Theorems -/

/-- Claim C1: every always-vendored dependency appears in the copy list in
both modes (`fully_vendored = false` is Default, `true` is FullyVendored),
and every not-vendored-by-default dependency appears in the copy list iff
the mode is FullyVendored. -/
theorem c1_copy_list :
    (∀ fv : Bool, ∀ d ∈ _ALWAYS_VENDORED_DEPS, d ∈ deps_to_copy fv)
    ∧ (∀ fv : Bool, ∀ d ∈ _DEPS_NOT_VENDORED_BY_DEFAULT,
        d ∈ deps_to_copy fv ↔ fv = true) := by decide

/-- Witness for C1 at `asio` (always vendored, Default mode) and
`googletest` (not vendored by default). -/
theorem c1_copy_list_witness :
    ("asio" ∈ _ALWAYS_VENDORED_DEPS ∧ "asio" ∈ deps_to_copy false)
    ∧ ("googletest" ∈ _DEPS_NOT_VENDORED_BY_DEFAULT
       ∧ ("googletest" ∈ deps_to_copy true ↔ true = true)) :=
  ⟨⟨by decide, c1_copy_list.1 false "asio" (by decide)⟩,
   ⟨by decide, c1_copy_list.2 true "googletest" (by decide)⟩⟩

/-- Claim C3: the archive top-level directory name is a pure function of the
mode and the version display string, equal to
`devilutionx-src` + (`-full` iff fully vendored) + `-` + display; concretely
`devilutionx-src-1.2.3` for Default and `devilutionx-src-full-1.2.3` for
FullyVendored at display `1.2.3`. -/
theorem c3_top_level_dir_name :
    (∀ (v : Version) (fv : Bool),
      archive_top_level_dir_name v fv
        = "devilutionx-src" ++ (if fv then "-full" else "") ++ "-" ++ v.str)
    ∧ archive_top_level_dir_name (Version.make "1.2.3" "abc1234") false
        = "devilutionx-src-1.2.3"
    ∧ archive_top_level_dir_name (Version.make "1.2.3" "abc1234") true
        = "devilutionx-src-full-1.2.3" :=
  ⟨fun _ fv => by cases fv <;> rfl, by decide, by decide⟩

/-- Claim C4: with a non-empty revision identifier, the display string is the
version-file prefix when it contains no `-`, and prefix-dash-revision when it
does; e.g. `1.2.3-beta` with `abc1234` gives `1.2.3-beta-abc1234`. -/
theorem c4_display_with_revision (pfx sha : String) (h : sha ≠ "") :
    ((Version.make pfx sha).str
      = if pyContainsChar pfx '-' then pfx ++ "-" ++ sha else pfx)
    ∧ (Version.make "1.2.3-beta" "abc1234").str = "1.2.3-beta-abc1234" :=
  ⟨rfl, by decide⟩

/-- Witness for C4 at prefix `1.2.3-beta` and revision `abc1234`. -/
theorem c4_display_with_revision_witness :
    ("abc1234" : String) ≠ ""
    ∧ (((Version.make "1.2.3-beta" "abc1234").str
        = if pyContainsChar "1.2.3-beta" '-' then "1.2.3-beta" ++ "-" ++ "abc1234"
          else "1.2.3-beta")
       ∧ (Version.make "1.2.3-beta" "abc1234").str = "1.2.3-beta-abc1234") :=
  ⟨by decide, c4_display_with_revision "1.2.3-beta" "abc1234" (by decide)⟩

/-- Counterexample to claim C5: with an empty revision identifier and the
separator-containing prefix `1.2.3-beta`, the display string is NOT the
prefix (the code produces `1.2.3-beta-`, with a trailing separator). -/
theorem c5_counterexample :
    (Version.make "1.2.3-beta" "").str ≠ "1.2.3-beta" := by decide

/-- Claim C5 (amended): constructing a version with an empty revision
identifier never fails; the display equals the prefix when the prefix has no
separator, but equals prefix + `-` (a trailing separator, not the bare
prefix) when the prefix contains a separator. -/
theorem c5_empty_revision_display (pfx : String) :
    (Version.make pfx "").str
      = if pyContainsChar pfx '-' then pfx ++ "-" else pfx := by
  unfold Version.make
  by_cases h : pyContainsChar pfx '-' = true
  · simp only [h, if_true]
    cases pfx with
    | mk data => exact congrArg String.mk (List.append_nil _)
  · simp only [h]
    rfl

/-- Counterexample to claim C2: in FullyVendored mode the emitted
system-copy-disabling list is NOT sorted lexicographically by dependency
name (neither the dependency-name order nor the flag strings are sorted):
the not-vendored-by-default names are appended in catalog declaration order
after the sorted base names. -/
theorem c2_counterexample :
    isSortedLe (system_off_dep_names true) = false
    ∧ isSortedLe (system_off_flags true) = false := by decide

/-- Claim C2 (amended): in Default mode the system-copy-disabling list is
sorted lexicographically by dependency name, but in FullyVendored mode it is
not (the additional names follow in catalog declaration order); in both
modes it has no duplicates and contains exactly one entry per dependency
whose system copy must be disabled in that mode (Default: catalog minus the
always-vendored set; FullyVendored: additionally each not-vendored-by-default
dependency). -/
theorem c2_system_off_flags :
    isSortedLe (system_off_dep_names false) = true
    ∧ isSortedLe (system_off_dep_names true) = false
    ∧ (∀ fv : Bool, (system_off_dep_names fv).Nodup ∧ (system_off_flags fv).Nodup)
    ∧ (∀ fv : Bool, ∀ d ∈ _DEPS ++ _DEPS_NOT_VENDORED_BY_DEFAULT,
        (system_off_dep_names fv).count d
          = if (d ∈ _DEPS ∧ d ∉ _ALWAYS_VENDORED_DEPS)
              ∨ (fv = true ∧ d ∈ _DEPS_NOT_VENDORED_BY_DEFAULT)
            then 1 else 0) := by decide

/-- Witness for the amended C2 at dependency `googletest` in FullyVendored
mode. -/
theorem c2_system_off_flags_witness :
    ("googletest" ∈ _DEPS ++ _DEPS_NOT_VENDORED_BY_DEFAULT)
    ∧ (system_off_dep_names true).count "googletest"
        = (if ("googletest" ∈ _DEPS ∧ "googletest" ∉ _ALWAYS_VENDORED_DEPS)
              ∨ (true = true ∧ "googletest" ∈ _DEPS_NOT_VENDORED_BY_DEFAULT)
           then 1 else 0) :=
  ⟨by decide, c2_system_off_flags.2.2.2 true "googletest" (by decide)⟩

/-- Counterexample to claim C6: when the configure and build cmake
invocations complete with NON-ZERO exit statuses (1 and 2), the run does not
fail — later pipeline stages still execute and the version is produced
(`subprocess.run` is called without `check=True`). -/
theorem c6_counterexample :
    main_external_steps (ProcOutcome.completed 1 "") (ProcOutcome.completed 2 "")
      (ProcOutcome.completed 0 "abc1234\n") "1.2.3\n"
      = Except.ok (Version.make "1.2.3" "abc1234") := rfl

/-- Claim C6 (amended): when an external process cannot be found, the raised
exception propagates immediately and no later stage runs; but a non-zero
exit status from the configure/build step or the revision lookup is ignored
and the pipeline continues through all later stages. -/
theorem c6_external_process_failure :
    (∀ (b r : ProcOutcome) (vf : String),
      main_external_steps ProcOutcome.notFound b r vf
        = Except.error (PipelineError.fileNotFound "cmake"))
    ∧ (∀ (c : Nat) (o : String) (r : ProcOutcome) (vf : String),
      main_external_steps (ProcOutcome.completed c o) ProcOutcome.notFound r vf
        = Except.error (PipelineError.fileNotFound "cmake"))
    ∧ (∀ (c c' : Nat) (o o' : String) (vf : String),
      main_external_steps (ProcOutcome.completed c o) (ProcOutcome.completed c' o')
        ProcOutcome.notFound vf
        = Except.error (PipelineError.fileNotFound "git"))
    ∧ (∀ (c c' c'' : Nat) (o o' o'' : String) (vf : String),
      main_external_steps (ProcOutcome.completed c o) (ProcOutcome.completed c' o')
        (ProcOutcome.completed c'' o'') vf
        = Except.ok (Version.make (pyRstrip vf) (pyRstrip o''))) :=
  ⟨fun _ _ _ => rfl, fun _ _ _ _ => rfl, fun _ _ _ _ _ => rfl,
   fun _ _ _ _ _ _ _ => rfl⟩

/-- Counterexample to claim C7: in the directory
`/build/_deps/sdl_audiolib-src/3rdparty/fmt`, the entry `core.h` is put on
the ignore list (it does NOT survive filtering), even though neither general
exclusion rule matches it — the sdl_audiolib override removes everything
under that sub-path rather than preserving it. -/
theorem c7_counterexample :
    ignore_dep_src "/build/_deps/sdl_audiolib-src/3rdparty/fmt" ["core.h"] = ["core.h"]
    ∧ ignoreDepFileMatches "core.h" = false
    ∧ ignoreDepDirMatches "core.h" = false := by decide

/-- Claim C7 (amended): for the one fragile dependency (any `src` containing
`sdl_audiolib`), the general directory/file rules are overridden throughout
its tree: everywhere except the nested sub-path
`.../sdl_audiolib-src/3rdparty/fmt` NOTHING is ignored (entries survive even
when the general rules would exclude them), while in that one sub-path ALL
entries are ignored. -/
theorem c7_sdl_audiolib_override (src : String) (names : List String)
    (h : pyInStr "sdl_audiolib" src = true) :
    ignore_dep_src src names
      = if pyEndsWith src "/sdl_audiolib-src/3rdparty/fmt" then names else [] := by
  unfold ignore_dep_src
  rw [if_pos h]
  by_cases he : pyEndsWith src "/sdl_audiolib-src/3rdparty/fmt" = true
  · rw [if_pos he, he]
    simp
  · rw [if_neg he, Bool.eq_false_iff.mpr he]
    simp

/-- Witness for the amended C7 at an sdl_audiolib directory outside the
`3rdparty/fmt` sub-path, holding entries the general rules would exclude. -/
theorem c7_sdl_audiolib_override_witness :
    pyInStr "sdl_audiolib" "/b/_deps/sdl_audiolib-src/include" = true
    ∧ ignore_dep_src "/b/_deps/sdl_audiolib-src/include" ["docs", "x.png"]
        = (if pyEndsWith "/b/_deps/sdl_audiolib-src/include" "/sdl_audiolib-src/3rdparty/fmt"
           then ["docs", "x.png"] else []) :=
  ⟨by decide, c7_sdl_audiolib_override _ _ (by decide)⟩

/-- Claim C9: the generated `dist/CMakeLists.txt` content is a deterministic
byte-for-byte function of its inputs: any two versions with the same
revision identifier yield identical content in the same mode (the content
reads nothing else — in particular not the version display/prefix, nor the
filesystem). -/
theorem c9_config_deterministic (v w : Version) (fv : Bool)
    (h : v.commit_sha = w.commit_sha) :
    write_dist_cmakelists_content v fv = write_dist_cmakelists_content w fv := by
  unfold write_dist_cmakelists_content
  rw [h]

/-- Witness for C9: two runs at the same revision `abc1234` (even with
different version prefixes) produce byte-identical configuration content. -/
theorem c9_config_deterministic_witness :
    (Version.make "1.2.3" "abc1234").commit_sha
      = (Version.make "9.9.9-rc" "abc1234").commit_sha
    ∧ write_dist_cmakelists_content (Version.make "1.2.3" "abc1234") false
        = write_dist_cmakelists_content (Version.make "9.9.9-rc" "abc1234") false :=
  ⟨rfl, c9_config_deterministic _ _ false rfl⟩

/-- Helper: a match found in the tail (with the boundary flag set by the
head character) is a match of the whole list. -/
theorem dirSearchFrom_cons_of_tail {l : List Char} (c : Char) (b : Bool)
    (h : dirSearchFrom (c == '/') l = true) : dirSearchFrom b (c :: l) = true := by
  unfold dirSearchFrom
  rw [h, Bool.or_true]

/-- Helper: a match right after a `/` is a match of any extension to the
left. -/
theorem dirSearchFrom_append (u : List Char) (b : Bool) (l : List Char)
    (h : dirSearchFrom true l = true) :
    dirSearchFrom b (u ++ '/' :: l) = true := by
  induction u generalizing b with
  | nil => exact dirSearchFrom_cons_of_tail '/' b h
  | cons c t ih => exact dirSearchFrom_cons_of_tail c b (ih (c == '/'))

/-- Claim C8: the directory-exclusion pattern rejects every path containing
`/tests/`, every path containing `/doc/`, and every path containing `.git/`
at a component boundary (at the start or after a `/`), and accepts the
ordinary source path `src/foo.c`. -/
theorem c8_dir_exclusion :
    (∀ u v : String, ignoreDepDirMatches (u ++ "/tests/" ++ v) = true)
    ∧ (∀ u v : String, ignoreDepDirMatches (u ++ "/doc/" ++ v) = true)
    ∧ (∀ v : String, ignoreDepDirMatches (".git/" ++ v) = true)
    ∧ (∀ u v : String, ignoreDepDirMatches (u ++ "/.git/" ++ v) = true)
    ∧ ignoreDepDirMatches "src/foo.c" = false := by
  refine ⟨?_, ?_, ?_, ?_, by decide⟩
  · intro u v
    have h2 : (u ++ "/tests/" ++ v).data
        = u.data ++ '/' :: ("tests/".data ++ v.data) := by
      rw [show (u ++ "/tests/" ++ v).data = (u.data ++ "/tests/".data) ++ v.data from rfl,
          List.append_assoc]
      rfl
    show dirSearchFrom true (u ++ "/tests/" ++ v).data = true
    rw [h2]
    exact dirSearchFrom_append _ _ _ rfl
  · intro u v
    have h2 : (u ++ "/doc/" ++ v).data
        = u.data ++ '/' :: ("doc/".data ++ v.data) := by
      rw [show (u ++ "/doc/" ++ v).data = (u.data ++ "/doc/".data) ++ v.data from rfl,
          List.append_assoc]
      rfl
    show dirSearchFrom true (u ++ "/doc/" ++ v).data = true
    rw [h2]
    exact dirSearchFrom_append _ _ _ rfl
  · intro v
    exact rfl
  · intro u v
    have h2 : (u ++ "/.git/" ++ v).data
        = u.data ++ '/' :: (".git/".data ++ v.data) := by
      rw [show (u ++ "/.git/" ++ v).data = (u.data ++ "/.git/".data) ++ v.data from rfl,
          List.append_assoc]
      rfl
    show dirSearchFrom true (u ++ "/.git/" ++ v).data = true
    rw [h2]
    exact dirSearchFrom_append _ _ _ rfl

/-- Helper: one copy-loop iteration never removes an already-created
directory. -/
theorem mem_created_dirs_step {x : String} (st : CollectState) (q : String)
    (h : x ∈ st.created_dirs) : x ∈ (copy_repo_file_step st q).created_dirs := by
  unfold copy_repo_file_step
  by_cases hg : gitkeepMatches q = true
  · simp only [hg, if_pos]
    exact List.mem_cons_of_mem _ h
  · rw [if_neg (by simp [hg])]
    exact List.mem_cons_of_mem _ h

/-- Helper: the rest of the copy loop never removes an already-created
directory. -/
theorem mem_created_dirs_foldl {x : String} (l : List String) (st : CollectState)
    (h : x ∈ st.created_dirs) :
    x ∈ (l.foldl copy_repo_file_step st).created_dirs := by
  induction l generalizing st with
  | nil => simpa using h
  | cons q t ih => exact ih _ (mem_created_dirs_step st q h)

/-- Helper: every listed path gets its parent directory created. -/
theorem parentDir_mem_foldl (l : List String) (st : CollectState) (p : String)
    (hp : p ∈ l) :
    parentDir p ∈ (l.foldl copy_repo_file_step st).created_dirs := by
  induction l generalizing st with
  | nil => cases hp
  | cons q t ih =>
    rcases List.mem_cons.mp hp with h | h
    · subst h
      refine mem_created_dirs_foldl t _ ?_
      unfold copy_repo_file_step
      by_cases hg : gitkeepMatches p = true
      · simp [hg]
      · simp [hg]
    · exact ih _ h

/-- Helper: a path matching the `.gitkeep` pattern is never added to the
copied files. -/
theorem gitkeep_not_copied_foldl {p : String} (hk : gitkeepMatches p = true)
    (l : List String) (st : CollectState) (h : p ∉ st.copied_files) :
    p ∉ (l.foldl copy_repo_file_step st).copied_files := by
  induction l generalizing st with
  | nil => simpa using h
  | cons q t ih =>
    refine ih _ ?_
    unfold copy_repo_file_step
    by_cases hg : gitkeepMatches q = true
    · simpa [hg] using h
    · rw [if_neg (by simp [hg])]
      intro hmem
      rcases List.mem_cons.mp hmem with heq | hmem'
      · rw [heq] at hk
        exact hg hk
      · exact h hmem'

/-- Claim C10: each iteration of the repo-file copy loop creates the
destination's parent directory before the `.gitkeep` test (so the parent is
created even for marker paths); consequently, for any tracked path matching
the `.gitkeep` pattern, its parent directory exists in the staging tree
after the loop while the marker file itself is never copied. -/
theorem c10_gitkeep_dirs (srcs : List String) (p : String)
    (hmem : p ∈ srcs) (hkeep : gitkeepMatches p = true) :
    (∀ (st : CollectState) (q : String),
      parentDir q ∈ (copy_repo_file_step st q).created_dirs)
    ∧ parentDir p ∈ (copy_repo_files srcs).created_dirs
    ∧ p ∉ (copy_repo_files srcs).copied_files := by
  refine ⟨?_, parentDir_mem_foldl srcs _ p hmem,
    gitkeep_not_copied_foldl hkeep srcs _ (by simp)⟩
  intro st q
  unfold copy_repo_file_step
  by_cases hg : gitkeepMatches q = true
  · simp [hg]
  · simp [hg]

/-- Witness for C10 at the tracked listing `["assets/.gitkeep",
"Source/main.cpp"]`: the directory `assets` is created and the marker is not
copied. -/
theorem c10_gitkeep_dirs_witness :
    ("assets/.gitkeep" ∈ (["assets/.gitkeep", "Source/main.cpp"] : List String))
    ∧ gitkeepMatches "assets/.gitkeep" = true
    ∧ ((∀ (st : CollectState) (q : String),
          parentDir q ∈ (copy_repo_file_step st q).created_dirs)
       ∧ parentDir "assets/.gitkeep"
           ∈ (copy_repo_files ["assets/.gitkeep", "Source/main.cpp"]).created_dirs
       ∧ "assets/.gitkeep"
           ∉ (copy_repo_files ["assets/.gitkeep", "Source/main.cpp"]).copied_files) :=
  ⟨by decide, by decide, c10_gitkeep_dirs _ _ (by decide) (by decide)⟩

end MakeSrcDist
